import Mathlib

/-!
Shallow embedding of the coordinate-calibration / image-compositing bot
(`src/main.py`) and proofs of the specification's claims about it.

Conventions of the embedding:
* Python `str` is Lean `String` (operated on through `String.data : List Char`).
* Python exceptions are `Except`/`Option` results: `raise` becomes
  `Except.error`, a caught exception becomes the handler's value.
* Python integers are unbounded, so they are Lean `Int` (or `Nat` where the
  source value is provably non-negative).
* Regular-expression `fullmatch` calls are translated into structural
  matches on character lists that accept exactly the same strings
  (`\d` is modelled as the ASCII digits, `\s` as the ASCII whitespace
  class; the source never feeds non-ASCII digits/whitespace to them).
-/

namespace Pisaka

/-- ASCII whitespace class, the model of Python's `\s` and of the character
set removed by `str.strip()`. -/
def pyIsSpace (c : Char) : Bool :=
  c == ' ' || c == '\t' || c == '\n' || c == '\r' || c == '\x0b' || c == '\x0c'

/-- Model of `str.strip()` on a character list: drop whitespace from both ends. -/
def stripChars (l : List Char) : List Char :=
  ((l.dropWhile pyIsSpace).reverse.dropWhile pyIsSpace).reverse

/-- Python `s.strip()`. -/
def pyStrip (s : String) : String :=
  String.mk (stripChars s.data)

/-- Python `s.replace(a, b)` for one-character `a`, `b`: map a character
substitution over the whole string. -/
def pyMapChars (f : Char → Char) (s : String) : String :=
  String.mk (s.data.map f)

/-- Value of a decimal-digit character. -/
def digitVal (c : Char) : Nat :=
  c.toNat - 48

/-- Python `int` applied to a string of decimal digits. -/
def digitsToNat (l : List Char) : Nat :=
  l.foldl (fun acc c => 10 * acc + digitVal c) 0

/-- Model of `"\n".join(lines)` from `wrap_mono`. -/
def joinNl : List String → String
  | [] => ""
  | [x] => x
  | x :: xs => x ++ "\n" ++ joinNl xs

/-! ## `validate_time` (src/main.py lines 68-79) -/

/-- Model of `re.fullmatch(r"(\d{1,2}):(\d{2})", s)`: one or two digits, a colon,
exactly two digits; returns the two captured groups as numbers. -/
def timeMatch : List Char → Option (Nat × Nat)
  | [a, ':', b, c] =>
      if a.isDigit && b.isDigit && c.isDigit then
        some (digitVal a, 10 * digitVal b + digitVal c)
      else none
  | [a₁, a₂, ':', b, c] =>
      if a₁.isDigit && a₂.isDigit && b.isDigit && c.isDigit then
        some (10 * digitVal a₁ + digitVal a₂, 10 * digitVal b + digitVal c)
      else none
  | _ => none

/-- Model of `f"{n:02d}"` for `n ≤ 99`. -/
def pad2 (n : Nat) : String :=
  if n < 10 then "0" ++ toString n else toString n

/-- Model of `s.replace(".", ":")` — every dot becomes a colon. -/
def dotToColon (c : Char) : Char :=
  if c = '.' then ':' else c

/-- Model of `validate_time` (src/main.py 68-79): strip, normalize `.` to `:`,
require `(\d{1,2}):(\d{2})`, require `hh ≤ 23` and `mm ≤ 59`, return the
zero-padded `HH:MM` string; anything else raises `ValueError`. -/
def validate_time (s : String) : Except String String :=
  let s₁ := pyMapChars dotToColon (pyStrip s)
  match timeMatch s₁.data with
  | none => Except.error "time must be HH:MM"
  | some (hh, mm) =>
      if hh ≤ 23 && mm ≤ 59 then
        Except.ok (pad2 hh ++ ":" ++ pad2 mm)
      else
        Except.error "invalid time"

/-! ## `normalize_amount` (src/main.py lines 81-93) -/

/-- Model of `s.replace(",", ".")` — every comma becomes a dot. -/
def commaToDot (c : Char) : Char :=
  if c = ',' then '.' else c

/-- Model of `re.fullmatch(r"\d+(\.\d+)?", s)` as a Boolean: one or more digits,
optionally followed by a dot and one or more digits. -/
def amountPat (l : List Char) : Bool :=
  let ds := l.takeWhile Char.isDigit
  let rest := l.dropWhile Char.isDigit
  !ds.isEmpty &&
    match rest with
    | [] => true
    | '.' :: r₂ => !r₂.isEmpty && r₂.all Char.isDigit
    | _ => false

/-- Model of `normalize_amount` (src/main.py 81-93): strip, replace commas with dots,
require `\d+(\.\d+)?`, and return the string unchanged beyond that (the
leading-zero branch in the source is a `pass`). -/
def normalize_amount (s : String) : Except String String :=
  let s₁ := pyMapChars commaToDot (pyStrip s)
  if amountPat s₁.data then Except.ok s₁
  else Except.error "amount must be a number"

/-! ## `wrap_mono` (src/main.py lines 95-103) -/

/-- Model of `re.sub(r"\s+", "", text.strip())`: the wallet text with all whitespace
removed (stripping first, as the source does, then deleting the rest). -/
def walletStripped (text : String) : List Char :=
  (stripChars text.data).filter (fun c => !pyIsSpace c)

/-- Model of `[t[i:i+max_chars] for i in range(0, len(t), max_chars)]`: consecutive
fixed-width chunks.  (For `n = 0` Python's `range` would raise; the model
returns `[]` there — the source only ever calls this with `n = 34`.) -/
def chunksMono (n : Nat) (l : List Char) : List (List Char) :=
  if h : n = 0 ∨ l = [] then []
  else l.take n :: chunksMono n (l.drop n)
termination_by l.length
decreasing_by
  rw [List.length_drop]
  have h₁ : n ≠ 0 := fun hn => h (Or.inl hn)
  have h₂ : l ≠ [] := fun hl => h (Or.inr hl)
  have := List.length_pos.mpr h₂
  omega

/-- Model of `wrap_mono` (src/main.py 95-103): strip all whitespace, return `""` for
an empty remainder, otherwise join the first two fixed-width chunks with
newlines. -/
def wrap_mono (text : String) (max_chars : Nat) : String :=
  if walletStripped text = [] then ""
  else joinNl (((chunksMono max_chars (walletStripped text)).take 2).map String.mk)

/-! ## Rectangles and the coordinate registry (src/main.py lines 38-51) -/

/-- The `Coords` dataclass (src/main.py 38-43): a field's draw rectangle. -/
structure Coords where
  x : Int
  y : Int
  w : Int
  h : Int
deriving DecidableEq, Repr

/-- The closed set of field names keyed in `COORDS` / `COORD_NAMES_ORDER`. -/
inductive FieldName where
  | timeBox
  | battBox
  | opidBox
  | amountLine
  | walletBox
deriving DecidableEq, Repr

/-- The JSON/dict key of each field, as used by the overlay and config. -/
def fieldKey : FieldName → String
  | .timeBox => "TIME_BOX"
  | .battBox => "BATT_BOX"
  | .opidBox => "OPID_BOX"
  | .amountLine => "AMOUNT_LINE"
  | .walletBox => "WALLET_BOX"

/-- The registry: exactly one rectangle per field name (spec §3). -/
structure Registry where
  timeBox : Coords
  battBox : Coords
  opidBox : Coords
  amountLine : Coords
  walletBox : Coords
deriving DecidableEq, Repr

/-- Model of `get_box` — read one field's current rectangle from the registry.
The helper itself is in the repository's missing twin source copy; its
behavior (read the live registry value) is fixed by spec §2/§4.1. -/
def get_box (reg : Registry) : FieldName → Coords
  | .timeBox => reg.timeBox
  | .battBox => reg.battBox
  | .opidBox => reg.opidBox
  | .amountLine => reg.amountLine
  | .walletBox => reg.walletBox

/-- Replace one field's rectangle (the write half of `COORDS[k] = ...`). -/
def setBox (reg : Registry) : FieldName → Coords → Registry
  | .timeBox, c => { reg with timeBox := c }
  | .battBox, c => { reg with battBox := c }
  | .opidBox, c => { reg with opidBox := c }
  | .amountLine, c => { reg with amountLine := c }
  | .walletBox, c => { reg with walletBox := c }

/-- Built-in default rectangles (src/main.py 46-51). -/
def defaultRegistry : Registry :=
  { timeBox := ⟨45, 42, 120, 40⟩
    battBox := ⟨842, 42, 70, 40⟩
    opidBox := ⟨310, 1005, 330, 44⟩
    amountLine := ⟨170, 1360, 606, 50⟩
    walletBox := ⟨170, 1445, 606, 120⟩ }

/-- Registry iteration order (`COORD_NAMES_ORDER`, declaration order of the
boxes; the constant itself is in the missing twin copy). -/
def COORD_NAMES_ORDER : List FieldName :=
  [.timeBox, .battBox, .opidBox, .amountLine, .walletBox]

/-! ## The adjust command (src/main.py lines 276-296, `debug_adjust_cb`) -/

/-- The four adjustable components of a rectangle. -/
inductive Axis where
  | x
  | y
  | w
  | h
deriving DecidableEq, Repr

/-- Read one component of a rectangle. -/
def axisGet (c : Coords) : Axis → Int
  | .x => c.x
  | .y => c.y
  | .w => c.w
  | .h => c.h

/-- The lower clamp bound per axis: 1 for `w`/`h`, 0 for `x`/`y`. -/
def axisMin : Axis → Int
  | .x => 0
  | .y => 0
  | .w => 1
  | .h => 1

/-- The `adj` branch of `debug_adjust_cb` (src/main.py 280-285) on one
rectangle: add the signed delta to the chosen component, then clamp
`w`/`h` to at least 1 and `x`/`y` to at least 0. -/
def adjustCoords (c : Coords) (a : Axis) (delta : Int) : Coords :=
  match a with
  | .x => { c with x := max 0 (c.x + delta) }
  | .y => { c with y := max 0 (c.y + delta) }
  | .w => { c with w := max 1 (c.w + delta) }
  | .h => { c with h := max 1 (c.h + delta) }

/-- The registry-level effect of the `adj` branch of `debug_adjust_cb`:
`COORDS[k][field] = ...` mutates only the selected field's rectangle. -/
def adjustField (reg : Registry) (k : FieldName) (a : Axis) (delta : Int) :
    Registry :=
  setBox reg k (adjustCoords (get_box reg k) a delta)

/-- The rectangle invariant of spec §3: non-negative position, size ≥ 1. -/
def coordsValid (c : Coords) : Prop :=
  0 ≤ c.x ∧ 0 ≤ c.y ∧ 1 ≤ c.w ∧ 1 ≤ c.h

instance (c : Coords) : Decidable (coordsValid c) := by
  unfold coordsValid
  infer_instance

/-- Every rectangle in the registry satisfies the invariant. -/
def registryValid (reg : Registry) : Prop :=
  coordsValid reg.timeBox ∧ coordsValid reg.battBox ∧
    coordsValid reg.opidBox ∧ coordsValid reg.amountLine ∧
    coordsValid reg.walletBox

instance (reg : Registry) : Decidable (registryValid reg) := by
  unfold registryValid
  infer_instance

/-! ## JSON documents (`config.json`) -/

/-- Values of a parsed JSON document (what `json.loads` returns). -/
inductive Json where
  | null
  | bool (b : Bool)
  | num (n : Int)
  | str (s : String)
  | arr (xs : List Json)
  | obj (kvs : List (String × Json))

/-- Model of Python `dict.get(key)` on a JSON object: the value under `key`,
or `None` when the key is absent. -/
def dictGet : List (String × Json) → String → Json
  | [], _ => Json.null
  | (k, v) :: rest, key => if key = k then v else dictGet rest key

/-- Python truthiness of a JSON value (`None`, `False`, `0`, `""`, `[]` and
`{}` are falsy). -/
def jsonFalsy : Json → Bool
  | .null => true
  | .bool b => !b
  | .num n => n == 0
  | .str s => s == ""
  | .arr xs => xs.isEmpty
  | .obj kvs => kvs.isEmpty

/-- Model of Python `a or b`: `b` when `a` is falsy, else `a`. -/
def pyOr (a b : Json) : Json :=
  if jsonFalsy a then b else a

/-- The token expression of `load_token_from_json` (src/main.py 33):
`data.get("BOT_TOKEN") or data.get("token") or ""`. -/
def tokenValue (kvs : List (String × Json)) : Json :=
  pyOr (dictGet kvs "BOT_TOKEN") (pyOr (dictGet kvs "token") (Json.str ""))

/-- The observable state of the config file for `load_token_from_json`:
absent, present but not valid JSON, or a parsed JSON document. -/
inductive ConfigFile where
  | missing
  | unparsable
  | doc (j : Json)

/-- Model of `load_token_from_json` (src/main.py 28-36): `none` when the file
is missing or `json.loads` fails; otherwise take
`data.get("BOT_TOKEN") or data.get("token") or ""`, strip it, and return it
unless empty.  A non-object document or a non-string token makes `.get` or
`.strip()` raise `AttributeError`, which the bare `except` turns into
`none` as well — the function never raises. -/
def load_token_from_json : ConfigFile → Option String
  | .missing => none
  | .unparsable => none
  | .doc (Json.obj kvs) =>
      match tokenValue kvs with
      | Json.str s => if pyStrip s = "" then none else some (pyStrip s)
      | _ => none
  | .doc _ => none

/-! ## Registry persistence (spec §4.2; the functions `save_coords_to_json`,
`refresh_boxes` and the startup load live in the repository's missing twin
source copy — src/main.py only calls them at lines 234, 243 and 264) -/

/-- Serialization of one rectangle as a JSON object of its four integers. -/
def coordsToJson (c : Coords) : Json :=
  Json.obj
    [("x", Json.num c.x), ("y", Json.num c.y),
      ("w", Json.num c.w), ("h", Json.num c.h)]

/-- Modelled from the spec: `save_coords_to_json` (spec §4.2 `save`, §6) —
missing from src/, only its call sites are there.  It serializes the full
registry snapshot, and the token when available, as a JSON document mapping
each field name to its `{x, y, w, h}` integers. -/
def save_coords_to_json (token : Option String) (reg : Registry) : Json :=
  Json.obj
    ((match token with
      | some t => [("BOT_TOKEN", Json.str t)]
      | none => []) ++
      COORD_NAMES_ORDER.map (fun k => (fieldKey k, coordsToJson (get_box reg k))))

/-- Reading one rectangle's four integers back from a JSON value. -/
def jsonToCoords : Json → Option Coords
  | Json.obj kvs =>
      match dictGet kvs "x", dictGet kvs "y", dictGet kvs "w", dictGet kvs "h" with
      | Json.num x, Json.num y, Json.num w, Json.num h => some ⟨x, y, w, h⟩
      | _, _, _, _ => none
  | _ => none

/-- Modelled from the spec: the loading half of the Persistence Adapter
(spec §4.2 invariant "`save` then `load` round-trips every rectangle's four
integers exactly", file format of §6) — missing from src/.  It reads each
field's rectangle back from the JSON document. -/
def load_coords_from_json : Json → Option Registry
  | Json.obj kvs => do
      let t ← jsonToCoords (dictGet kvs "TIME_BOX")
      let b ← jsonToCoords (dictGet kvs "BATT_BOX")
      let o ← jsonToCoords (dictGet kvs "OPID_BOX")
      let a ← jsonToCoords (dictGet kvs "AMOUNT_LINE")
      let w ← jsonToCoords (dictGet kvs "WALLET_BOX")
      some ⟨t, b, o, a, w⟩
  | _ => none

/-! ## Font resolution (src/main.py lines 53-62) -/

/-- The observable state of a font file on disk: absent, present but not a
valid outline font (so `ImageFont.truetype` raises), or valid. -/
inductive FontFile where
  | missing
  | corrupt
  | valid
deriving DecidableEq, Repr

/-- What PIL hands back: a scalable outline font at the requested size, or
the fixed built-in bitmap font from `ImageFont.load_default()`. -/
inductive FontHandle where
  | truetype (size : Nat)
  | builtin
deriving DecidableEq, Repr

/-- Model of `path.exists()` for a font file. -/
def fontFileExists : FontFile → Bool
  | .missing => false
  | .corrupt => true
  | .valid => true

/-- Model of `ImageFont.truetype(path, size)`: a scalable handle on a valid
outline font, `none` (an exception) on anything else. -/
def truetypeOpen : FontFile → Nat → Option FontHandle
  | .valid, size => some (.truetype size)
  | _, _ => none

/-- Model of `load_font` (src/main.py 53-62): if the file exists, try
`ImageFont.truetype`; any exception is swallowed and — as when the file is
absent — the built-in bitmap font is returned.  Total: it never fails. -/
def load_font (f : FontFile) (size : Nat) : FontHandle :=
  if fontFileExists f then
    match truetypeOpen f size with
    | some fh => fh
    | none => .builtin
  else .builtin

/-! ## The debug overlay (src/main.py lines 176-203) -/

/-- Bounds handed to `draw.rectangle` for one field (src/main.py 182):
`[c.x, c.y, c.x + c.w, c.y + c.h]`. -/
def overlayRect (c : Coords) : Int × Int × Int × Int :=
  (c.x, c.y, c.x + c.w, c.y + c.h)

/-- Model of `render_debug_overlay` (src/main.py 176-203) restricted to its
geometric observables: for each field in registry order, the outlined
rectangle's bounds.  The call reads the registry and returns it untouched
(first component) together with the drawn bounds (second component). -/
def render_debug_overlay (reg : Registry) :
    Registry × List (String × (Int × Int × Int × Int)) :=
  (reg, COORD_NAMES_ORDER.map (fun k => (fieldKey k, overlayRect (get_box reg k))))

/-! ## Battery input (src/main.py lines 64-66 and 310-319) -/

/-- Model of `re.sub(r"[^0-9]", "", v) or "0"`: the digit characters of the
input, or `"0"` when there are none. -/
def pyDigitsOrZero (v : String) : List Char :=
  if (v.data.filter Char.isDigit).isEmpty then ['0']
  else v.data.filter Char.isDigit

/-- Model of Python `int(s)` on the strings `clamp_int` builds: succeeds
exactly on a non-empty all-digit string; `none` stands for the `ValueError`
that `int` raises otherwise. -/
def pyInt (l : List Char) : Option Int :=
  if !l.isEmpty && l.all Char.isDigit then some (Int.ofNat (digitsToNat l))
  else none

/-- Model of `clamp_int` (src/main.py 64-66): delete every non-digit
character, fall back to `"0"` when nothing is left, convert with `int`,
clamp into `[lo, hi]`.  `none` models an escaped exception. -/
def clamp_int (v : String) (lo hi : Int) : Option Int :=
  match pyInt (pyDigitsOrZero v) with
  | some n => some (max lo (min hi n))
  | none => none

/-- Model of `got_battery` (src/main.py 310-319): run
`clamp_int(m.text or "", 0, 100)`; an exception would send the retry prompt
(`error`), success stores the value and advances to the time state (`ok`). -/
def got_battery (text : Option String) : Except Unit Int :=
  match clamp_int (text.getD "") 0 100 with
  | some n => Except.ok n
  | none => Except.error ()

end Pisaka

namespace Pisaka

/-- C4: `validate_time` normalizes `"8.52"` to `"08:52"`, rejects `"24:00"`
(hour out of range) and rejects `"8:5"` (minutes must be two digits). -/
theorem c4_validate_time_cases :
    validate_time "8.52" = Except.ok "08:52" ∧
    (∃ e, validate_time "24:00" = Except.error e) ∧
    (∃ e, validate_time "8:5" = Except.error e) :=
  ⟨rfl, ⟨"invalid time", rfl⟩, ⟨"time must be HH:MM", rfl⟩⟩

/-- C5: `normalize_amount` normalizes `"0,5589"` to `"0.5589"`, accepts
`"12"`, rejects `"12."` and rejects `"abc"`; rejection is an error value
(a raised `ValueError`), not a returned string. -/
theorem c5_normalize_amount_cases :
    normalize_amount "0,5589" = Except.ok "0.5589" ∧
    normalize_amount "12" = Except.ok "12" ∧
    (∃ e, normalize_amount "12." = Except.error e) ∧
    (∃ e, normalize_amount "abc" = Except.error e) :=
  ⟨rfl, rfl, ⟨"amount must be a number", rfl⟩, ⟨"amount must be a number", rfl⟩⟩

/-- C10: every string accepted by `normalize_amount` is returned exactly as
the input with surrounding whitespace stripped and commas replaced by dots —
no other change; in particular leading zeros survive (`"000.5"` stays
`"000.5"`). -/
theorem c10_normalize_amount_identity :
    (∀ s r, normalize_amount s = Except.ok r →
      r = pyMapChars commaToDot (pyStrip s)) ∧
    normalize_amount "000.5" = Except.ok "000.5" := by
  refine ⟨fun s r h => ?_, rfl⟩
  unfold normalize_amount at h
  by_cases hp : amountPat (pyMapChars commaToDot (pyStrip s)).data
  · simp [hp] at h
    exact h.symm
  · simp [hp] at h

/-- Witness for C10: at the concrete input `" 1,5 "`, `normalize_amount`
accepts and the theorem forces the result to be the stripped,
comma-to-dot image of the input. -/
theorem c10_witness :
    ("1.5" : String) = pyMapChars commaToDot (pyStrip " 1,5 ") :=
  c10_normalize_amount_identity.1 " 1,5 " "1.5" rfl

/-- Unfolding equation of `chunksMono` in the productive case. -/
theorem chunksMono_cons (n : Nat) (l : List Char) (hn : n ≠ 0)
    (hl : l ≠ []) :
    chunksMono n l = l.take n :: chunksMono n (l.drop n) := by
  rw [chunksMono]
  simp [hn, hl]

/-- Evaluation of `chunksMono` at the empty list. -/
theorem chunksMono_nil (n : Nat) : chunksMono n [] = [] := by
  rw [chunksMono]
  simp

/-- C2: adjusting any axis of any field by any signed delta keeps every
rectangle valid (`w`,`h ≥ 1`, `x`,`y ≥ 0`), re-clamps the touched component
to its axis minimum, and — whenever the unclamped sum already meets the
minimum — sets the component to exactly `old + delta`, with no upper
bound. -/
theorem c2_adjust_clamps (reg : Registry) (k : FieldName) (a : Axis)
    (delta : Int) (hreg : registryValid reg) :
    registryValid (adjustField reg k a delta) ∧
    axisMin a ≤ axisGet (get_box (adjustField reg k a delta) k) a ∧
    (axisMin a ≤ axisGet (get_box reg k) a + delta →
      axisGet (get_box (adjustField reg k a delta) k) a =
        axisGet (get_box reg k) a + delta) := by
  obtain ⟨⟨tx, ty, tw, th⟩, ⟨bx, bb, bw, bh⟩, ⟨ox, oy, ow, oh⟩,
    ⟨mx, my, mw, mh⟩, ⟨wx, wy, ww, wh⟩⟩ := reg
  cases k <;> cases a <;>
    (simp only [adjustField, setBox, get_box, adjustCoords, axisGet, axisMin,
      registryValid, coordsValid] at hreg ⊢
     omega)

/-- Witness for C2: shrinking the wallet box's width by 10 from the built-in
defaults keeps the registry valid and lands exactly on `old + delta`. -/
theorem c2_adjust_clamps_witness :
    registryValid (adjustField defaultRegistry .walletBox .w (-10)) ∧
    axisMin .w ≤
      axisGet (get_box (adjustField defaultRegistry .walletBox .w (-10))
        .walletBox) .w ∧
    (axisMin .w ≤ axisGet (get_box defaultRegistry .walletBox) .w + (-10) →
      axisGet (get_box (adjustField defaultRegistry .walletBox .w (-10))
          .walletBox) .w =
        axisGet (get_box defaultRegistry .walletBox) .w + (-10)) :=
  c2_adjust_clamps defaultRegistry .walletBox .w (-10) (by decide)

/-- C3: `wrap_mono` with chunk width 34 first removes all whitespace; a
remainder of exactly 70 characters yields two newline-joined lines of 34
characters each with the final 2 characters dropped, and a remainder of at
most 34 characters is returned whole as a single line. -/
theorem c3_wrap_mono (s : String) :
    ((walletStripped s).length = 70 →
      wrap_mono s 34 =
        String.mk ((walletStripped s).take 34) ++ "\n" ++
          String.mk (((walletStripped s).drop 34).take 34) ∧
      ((walletStripped s).take 34).length = 34 ∧
      (((walletStripped s).drop 34).take 34).length = 34 ∧
      ((walletStripped s).drop 68).length = 2) ∧
    ((walletStripped s).length ≤ 34 →
      wrap_mono s 34 = String.mk (walletStripped s)) := by
  constructor
  · intro h70
    have hne : walletStripped s ≠ [] := by
      intro he
      rw [he] at h70
      simp at h70
    have hd : ((walletStripped s).drop 34).length = 36 := by
      rw [List.length_drop]
      omega
    have hne₂ : (walletStripped s).drop 34 ≠ [] := by
      intro he
      rw [he] at hd
      simp at hd
    have h₁ := chunksMono_cons 34 (walletStripped s) (by omega) hne
    have h₂ := chunksMono_cons 34 ((walletStripped s).drop 34) (by omega) hne₂
    refine ⟨?_, ?_, ?_, ?_⟩
    · unfold wrap_mono
      rw [if_neg hne, h₁, h₂]
      simp [joinNl]
    · rw [List.length_take]
      omega
    · rw [List.length_take, List.length_drop]
      omega
    · rw [List.length_drop]
      omega
  · intro hle
    by_cases he : walletStripped s = []
    · unfold wrap_mono
      rw [if_pos he, he]
    · have h₁ := chunksMono_cons 34 (walletStripped s) (by omega) he
      have hdrop : (walletStripped s).drop 34 = [] := by
        apply List.drop_eq_nil_of_le
        omega
      have htake : (walletStripped s).take 34 = walletStripped s :=
        List.take_of_length_le hle
      unfold wrap_mono
      rw [if_neg he, h₁, hdrop, chunksMono_nil]
      simp [joinNl, htake]

/-- Witness for C3: a concrete 70-character wallet wraps to two 34-character
lines, and a concrete short wallet passes through unchanged. -/
theorem c3_wrap_mono_witness :
    (wrap_mono (String.mk (List.replicate 70 'a')) 34 =
        String.mk ((walletStripped (String.mk (List.replicate 70 'a'))).take 34) ++
          "\n" ++
          String.mk (((walletStripped
            (String.mk (List.replicate 70 'a'))).drop 34).take 34) ∧
      ((walletStripped (String.mk (List.replicate 70 'a'))).take 34).length = 34 ∧
      (((walletStripped
          (String.mk (List.replicate 70 'a'))).drop 34).take 34).length = 34 ∧
      ((walletStripped (String.mk (List.replicate 70 'a'))).drop 68).length = 2) ∧
    wrap_mono "abc xyz" 34 = String.mk (walletStripped "abc xyz") :=
  ⟨(c3_wrap_mono (String.mk (List.replicate 70 'a'))).1 (by decide),
    (c3_wrap_mono "abc xyz").2 (by decide)⟩

/-- C1: saving the coordinate registry to the JSON configuration document
and loading it back round-trips every rectangle's four integers exactly, for
any snapshot (with or without a stored token) — in particular for the
built-in defaults. -/
theorem c1_save_load_roundtrip :
    (∀ (token : Option String) (reg : Registry),
      load_coords_from_json (save_coords_to_json token reg) = some reg) ∧
    load_coords_from_json (save_coords_to_json none defaultRegistry) =
      some defaultRegistry := by
  constructor
  · intro token reg
    obtain ⟨⟨tx, ty, tw, th⟩, ⟨bx, bb, bw, bh⟩, ⟨ox, oy, ow, oh⟩,
      ⟨mx, my, mw, mh⟩, ⟨wx, wy, ww, wh⟩⟩ := reg
    cases token <;> rfl
  · rfl

/-- C6: config loading never raises: it yields no token when the file is
missing, when it cannot be parsed as JSON, or when the token found under the
two accepted keys is empty after trimming; otherwise it yields the trimmed
token. -/
theorem c6_load_token_total :
    load_token_from_json ConfigFile.missing = none ∧
    load_token_from_json ConfigFile.unparsable = none ∧
    (∀ kvs s, tokenValue kvs = Json.str s → pyStrip s = "" →
      load_token_from_json (ConfigFile.doc (Json.obj kvs)) = none) ∧
    (∀ kvs s, tokenValue kvs = Json.str s → pyStrip s ≠ "" →
      load_token_from_json (ConfigFile.doc (Json.obj kvs)) =
        some (pyStrip s)) := by
  refine ⟨rfl, rfl, ?_, ?_⟩
  · intro kvs s htok hemp
    simp [load_token_from_json, htok, hemp]
  · intro kvs s htok hne
    simp [load_token_from_json, htok, hne]

/-- Witness for C6: a sole `token` key holding `" abc "` loads as `"abc"`,
and a token of pure whitespace loads as nothing. -/
theorem c6_load_token_witness :
    load_token_from_json (ConfigFile.doc (Json.obj [("token", Json.str " abc ")])) =
      some (pyStrip " abc ") ∧
    load_token_from_json (ConfigFile.doc (Json.obj [("BOT_TOKEN", Json.str "  ")])) =
      none :=
  ⟨c6_load_token_total.2.2.2 [("token", Json.str " abc ")] " abc " rfl (by decide),
    c6_load_token_total.2.2.1 [("BOT_TOKEN", Json.str "  ")] "  " rfl (by decide)⟩

/-- C7: font resolution is total: a valid outline font file resolves to a
scalable handle at the requested size, and any other state (missing,
unreadable or corrupt file) resolves to the fixed built-in bitmap font
instead of raising. -/
theorem c7_load_font_total (f : FontFile) (size : Nat) :
    (f = FontFile.valid → load_font f size = FontHandle.truetype size) ∧
    (f ≠ FontFile.valid → load_font f size = FontHandle.builtin) := by
  constructor
  · intro h
    subst h
    rfl
  · intro h
    cases f with
    | missing => rfl
    | corrupt => rfl
    | valid => exact absurd rfl h

/-- Witness for C7: a valid font file yields a size-30 scalable handle; a
missing one yields the built-in font. -/
theorem c7_load_font_witness :
    load_font FontFile.valid 30 = FontHandle.truetype 30 ∧
    load_font FontFile.missing 30 = FontHandle.builtin :=
  ⟨(c7_load_font_total FontFile.valid 30).1 rfl,
    (c7_load_font_total FontFile.missing 30).2 (by decide)⟩

/-- C8: the overlay render is idempotent given an unchanged registry: it
does not mutate the registry, and a second call right after the first draws
every field's outlined rectangle at identical bounds — the bounds are a
function of the registry alone. -/
theorem c8_overlay_idempotent (reg : Registry) :
    (render_debug_overlay ((render_debug_overlay reg).1)).2 =
      (render_debug_overlay reg).2 ∧
    (render_debug_overlay reg).1 = reg :=
  ⟨rfl, rfl⟩

/-- Evaluation of `clamp_int` never fails and lands in `[lo, hi]`. -/
theorem clamp_int_total (v : String) (lo hi : Int) (hlohi : lo ≤ hi) :
    ∃ n, clamp_int v lo hi = some n ∧ lo ≤ n ∧ n ≤ hi := by
  unfold clamp_int
  by_cases he : (v.data.filter Char.isDigit).isEmpty
  · have h₀ : pyDigitsOrZero v = ['0'] := by
      unfold pyDigitsOrZero
      rw [if_pos he]
    rw [h₀]
    have h₁ : pyInt ['0'] = some 0 := rfl
    rw [h₁]
    exact ⟨max lo (min hi 0), rfl, by omega, by omega⟩
  · have h₀ : pyDigitsOrZero v = v.data.filter Char.isDigit := by
      unfold pyDigitsOrZero
      rw [if_neg he]
    have hall : (v.data.filter Char.isDigit).all Char.isDigit = true := by
      rw [List.all_eq_true]
      intro c hc
      exact List.of_mem_filter hc
    have h₁ : pyInt (v.data.filter Char.isDigit) =
        some (Int.ofNat (digitsToNat (v.data.filter Char.isDigit))) := by
      unfold pyInt
      rw [if_pos]
      rw [Bool.and_eq_true, Bool.not_eq_true']
      exact ⟨by simpa using he, hall⟩
    rw [h₀, h₁]
    exact ⟨_, rfl, by omega, by omega⟩

/-- C9: battery parsing is total and never rejects: for every message (or a
missing text) `got_battery` succeeds with a value in `[0, 100]` — so its
retry branch is unreachable — and an input with no digit at all yields 0. -/
theorem c9_battery_total :
    (∀ text : Option String,
      ∃ n, got_battery text = Except.ok n ∧ 0 ≤ n ∧ n ≤ 100) ∧
    (∀ s : String, s.data.all (fun c => !c.isDigit) →
      got_battery (some s) = Except.ok 0) := by
  constructor
  · intro text
    obtain ⟨n, hc, h₀, h₁⟩ := clamp_int_total (text.getD "") 0 100 (by omega)
    refine ⟨n, ?_, h₀, h₁⟩
    unfold got_battery
    rw [hc]
  · intro s hs
    have hnil : s.data.filter Char.isDigit = [] := by
      rw [List.filter_eq_nil_iff]
      intro c hc
      have := List.all_eq_true.mp hs c hc
      simp at this
      simp [this]
    unfold got_battery clamp_int
    simp only [Option.getD_some]
    have h₀ : pyDigitsOrZero s = ['0'] := by
      unfold pyDigitsOrZero
      rw [hnil]
      rfl
    rw [h₀]
    have h₁ : pyInt ['0'] = some 0 := rfl
    rw [h₁]
    norm_num

/-- Witness for C9: the non-numeric message `"hello"` is accepted as battery
value 0 — the retry branch is not taken. -/
theorem c9_battery_witness :
    got_battery (some "hello") = Except.ok 0 :=
  c9_battery_total.2 "hello" (by decide)

end Pisaka
